import Mathlib

/-!
Shallow embedding of the SafeTrip backend routes (geo, alerts, SOS,
incidents, tourist location) together with proofs about the embedded
operations.  Coordinates and other JSON numbers are modelled as
rationals where the code only moves them around and compares them, and
as reals where the code applies trigonometry (the haversine distance).
Strings from request bodies are modelled as `Option String` so that the
JavaScript truthiness checks (`!field`) can be expressed faithfully:
an absent field, the empty string, and the number zero are falsy.
-/

namespace SafeTrip

/-- Truthiness of an optional numeric request field in JavaScript:
absent (undefined or null) and zero are falsy. -/
def jsTruthyNum : Option ℚ → Bool
  | none => false
  | some q => q != 0

/-- Truthiness of an optional string request field in JavaScript:
absent and the empty string are falsy. -/
def jsTruthyStr : Option String → Bool
  | none => false
  | some s => s != ""

/-- Behaviour of `parseInt` on a finite number: truncation toward zero. -/
def jsParseInt (q : ℚ) : ℤ :=
  if q < 0 then -(⌊-q⌋) else ⌊q⌋

/-- Two argument arctangent with the semantics of `Math.atan2 y x`. -/
noncomputable def atan2 (y x : ℝ) : ℝ :=
  if 0 < x then Real.arctan (y / x)
  else if x < 0 then
    (if 0 ≤ y then Real.arctan (y / x) + Real.pi
     else Real.arctan (y / x) - Real.pi)
  else
    (if 0 < y then Real.pi / 2
     else if y < 0 then -(Real.pi / 2)
     else 0)

/-- The intermediate value `a` of the haversine formula in
`calculateDistance` (identical in `src/routes/geo.js` and in the
tourist routes file): `sin(dphi/2)^2 + cos(phi1) cos(phi2) sin(dlam/2)^2`
with angles converted from degrees to radians. -/
noncomputable def haversineA (lat1 lng1 lat2 lng2 : ℝ) : ℝ :=
  Real.sin ((lat2 - lat1) * Real.pi / 180 / 2) *
    Real.sin ((lat2 - lat1) * Real.pi / 180 / 2) +
  Real.cos (lat1 * Real.pi / 180) * Real.cos (lat2 * Real.pi / 180) *
    Real.sin ((lng2 - lng1) * Real.pi / 180 / 2) *
    Real.sin ((lng2 - lng1) * Real.pi / 180 / 2)

/-- The `calculateDistance` helper of the repository: haversine distance
in meters with Earth radius 6371e3, `c = 2 * atan2(sqrt a, sqrt (1-a))`,
result `R * c`. -/
noncomputable def calculateDistance (lat1 lng1 lat2 lng2 : ℝ) : ℝ :=
  6371000 * (2 * atan2 (Real.sqrt (haversineA lat1 lng1 lat2 lng2))
    (Real.sqrt (1 - haversineA lat1 lng1 lat2 lng2)))

/-- The authenticated caller attached to a request by the `auth`
middleware: the decoded JWT carries `userId` and `userType`. -/
structure AuthUser where
  userId : Nat
  userType : String
  deriving DecidableEq

/-- An Alert document.  Statuses and types are the literal strings the
routes compare against (`"sos"`, `"incident"`, `"active"`, ...). -/
structure Alert where
  id : Nat
  type : String
  touristId : Option Nat
  lat : ℚ
  lng : ℚ
  message : String
  description : Option String
  severity : String
  status : String
  authorityId : Option Nat
  createdAt : ℤ
  updatedAt : ℤ
  deriving DecidableEq

/-- A Tourist profile document; `name` stands for the name of the
linked User document that the routes populate. -/
structure Tourist where
  id : Nat
  userId : Nat
  name : String
  status : String
  locationSharing : Bool
  currentLocation : Option (ℚ × ℚ × ℤ)
  safetyScore : ℤ
  deriving DecidableEq

/-- An Authority profile document. -/
structure Authority where
  id : Nat
  userId : Nat
  isOnDuty : Bool
  department : String
  deriving DecidableEq

/-- A GeoFence document.  The schema default for `isActive` is `true`. -/
structure GeoFence where
  id : Nat
  name : String
  description : Option String
  type : String
  lat : ℚ
  lng : ℚ
  radius : ℚ
  region : String
  isActive : Bool
  createdBy : Option Nat
  deriving DecidableEq

/-- An Incident document. -/
structure Incident where
  id : Nat
  reporterId : Nat
  type : String
  title : String
  description : String
  lat : ℚ
  lng : ℚ
  severity : String
  witnesses : List String
  evidences : List String
  assignedOfficer : Option Nat
  deriving DecidableEq

/-- The collections the routes read and write. -/
structure ServerState where
  alerts : List Alert
  tourists : List Tourist
  authorities : List Authority
  fences : List GeoFence
  incidents : List Incident
  deriving DecidableEq

/-- Outcome of a request, by HTTP status and response message where the
routes distinguish them. -/
inductive HttpResult where
  | ok
  | created
  | badRequest (msg : String)
  | forbidden (msg : String)
  | notFound (msg : String)
  | serverError
  deriving DecidableEq

/-- `Alert.findById` / `Alert.findOne({_id})`. -/
def findAlertById (st : ServerState) (i : Nat) : Option Alert :=
  st.alerts.find? (fun a => a.id == i)

/-- `Alert.findOne({_id: sosId, type: "sos"})`. -/
def findSosAlertById (st : ServerState) (i : Nat) : Option Alert :=
  st.alerts.find? (fun a => a.id == i && a.type == "sos")

/-- `Tourist.findById`. -/
def findTouristById (st : ServerState) (i : Nat) : Option Tourist :=
  st.tourists.find? (fun t => t.id == i)

/-- `Tourist.findOne({userId})`. -/
def findTouristByUserId (st : ServerState) (u : Nat) : Option Tourist :=
  st.tourists.find? (fun t => t.userId == u)

/-- `Authority.findOne({userId})`. -/
def findAuthorityByUserId (st : ServerState) (u : Nat) : Option Authority :=
  st.authorities.find? (fun a => a.userId == u)

/-- `GeoFence.findById`. -/
def findFenceById (st : ServerState) (i : Nat) : Option GeoFence :=
  st.fences.find? (fun f => f.id == i)

/-- Persisting a modified alert document (save / findByIdAndUpdate):
the stored document with the same id is replaced. -/
def saveAlertById (st : ServerState) (a : Alert) : ServerState :=
  { st with alerts := st.alerts.map (fun x => if x.id == a.id then a else x) }

/-- Persisting a modified geofence document. -/
def saveFenceById (st : ServerState) (f : GeoFence) : ServerState :=
  { st with fences := st.fences.map (fun x => if x.id == f.id then f else x) }

/-- `Tourist.findByIdAndUpdate(i, {status})`. -/
def setTouristStatusById (st : ServerState) (i : Nat) (s : String) :
    ServerState :=
  { st with tourists := st.tourists.map (fun t =>
      if t.id == i then { t with status := s } else t) }


/-- PUT /sos/:id/status (emergency routes).  Role gate, then a check
that the requested status is one of acknowledged, responding, resolved;
the stored alert (looked up with a `type: "sos"` filter) is overwritten
with the requested status without consulting its current status.  When
the requested status is resolved, the subject tourist is set back to
active.  The authority profile lookup result is dereferenced
unconditionally, so a missing profile raises and yields a 500. -/
def updateSosStatus (st : ServerState) (user : AuthUser) (sosId : Nat)
    (status : String) (responseNotes : Option String) (now : ℤ) :
    HttpResult × ServerState :=
  if user.userType != "authority" then
    (.forbidden "Access denied. Only authorities can update SOS status.", st)
  else if !(["acknowledged", "responding", "resolved"].contains status) then
    (.badRequest "Invalid status", st)
  else
    match findSosAlertById st sosId with
    | none => (.notFound "SOS alert not found", st)
    | some a =>
      match findAuthorityByUserId st user.userId with
      | none => (.serverError, st)
      | some auth =>
        let a' := { a with
          status := status, authorityId := some auth.id,
          description := if jsTruthyStr responseNotes then
            responseNotes else a.description,
          updatedAt := now }
        let st1 := saveAlertById st a'
        if status == "resolved" then
          match a.touristId with
          | some tid => (.ok, setTouristStatusById st1 tid "active")
          | none => (.ok, st1)
        else (.ok, st1)

/-- PUT /:id/status (alert routes).  Role gate, then a check that the
requested status is one of acknowledged, responding, resolved, closed;
`findByIdAndUpdate` then overwrites the stored status without
consulting the current one.  Tourists are never touched. -/
def updateAlertStatus (st : ServerState) (user : AuthUser) (alertId : Nat)
    (status : String) (now : ℤ) : HttpResult × ServerState :=
  if user.userType != "authority" then
    (.forbidden "Access denied. Only authorities can update alert status.", st)
  else if !(["acknowledged", "responding", "resolved", "closed"].contains
      status) then
    (.badRequest "Invalid status", st)
  else
    match findAlertById st alertId with
    | none => (.notFound "Alert not found", st)
    | some a =>
      (.ok, saveAlertById st { a with status := status, updatedAt := now })

/-- PUT /alerts/:id/status (admin routes).  There is no role check;
after the status list check the authority profile of the caller is
looked up and its id dereferenced, so a caller without an authority
profile gets a 500 before any write. -/
def adminUpdateAlertStatus (st : ServerState) (user : AuthUser)
    (alertId : Nat) (status : String) (now : ℤ) : HttpResult × ServerState :=
  if !(["acknowledged", "responding", "resolved", "closed"].contains
      status) then
    (.badRequest "Invalid status", st)
  else
    match findAuthorityByUserId st user.userId with
    | none => (.serverError, st)
    | some auth =>
      match findAlertById st alertId with
      | none => (.notFound "Alert not found", st)
      | some a =>
        (.ok, saveAlertById st { a with
          status := status, authorityId := some auth.id, updatedAt := now })

/-- POST /sos (emergency routes).  The location check uses JavaScript
truthiness of `location.lat` and `location.lng`.  On success a new
alert of type sos in status active is stored and the tourist status is
set to emergency.  Notification helpers have no state effect. -/
def createSOS (st : ServerState) (user : AuthUser) (lat lng : Option ℚ)
    (message severity : Option String) (now : ℤ) (newId : Nat) :
    HttpResult × ServerState :=
  if !(jsTruthyNum lat && jsTruthyNum lng) then
    (.badRequest "Location coordinates are required for SOS", st)
  else
    match findTouristByUserId st user.userId with
    | none => (.notFound "Tourist profile not found", st)
    | some t =>
      let sev := severity.getD "critical"
      let msg := if jsTruthyStr message then message.getD ""
                 else "Emergency SOS from " ++ t.name
      let alert : Alert := {
        id := newId, type := "sos",
        touristId := some t.id, lat := lat.getD 0, lng := lng.getD 0,
        message := msg, description := none, severity := sev,
        status := "active", authorityId := none,
        createdAt := now, updatedAt := now }
      let st1 := { st with alerts := alert :: st.alerts }
      (.created, setTouristStatusById st1 t.id "emergency")

/-- POST /incident (emergency routes).  Creates the incident, then a
linked alert of type incident in status active with the incident
severity and a message synthesized from the title, then assigns the
incident to the first on-duty authority of the police or tourism
department if one exists. -/
def fileIncident (st : ServerState) (user : AuthUser)
    (type title description : Option String) (location : Option (ℚ × ℚ))
    (severity : Option String) (witnesses evidences : Option (List String))
    (now : ℤ) (newIncidentId newAlertId : Nat) : HttpResult × ServerState :=
  if !(jsTruthyStr type && jsTruthyStr title && jsTruthyStr description &&
      location.isSome) then
    (.badRequest "Type, title, description, and location are required", st)
  else
    match findTouristByUserId st user.userId with
    | none => (.notFound "Tourist profile not found", st)
    | some t =>
      let c := location.getD (0, 0)
      let sev := if jsTruthyStr severity then severity.getD "" else "medium"
      let assigned := (st.authorities.filter (fun a =>
        a.isOnDuty && (a.department == "Police Department" ||
          a.department == "Tourism Department"))).head?
      let incident : Incident := {
        id := newIncidentId, reporterId := t.id,
        type := type.getD "", title := title.getD "",
        description := description.getD "", lat := c.1, lng := c.2,
        severity := sev, witnesses := witnesses.getD [],
        evidences := evidences.getD [],
        assignedOfficer := assigned.map (fun a => a.id) }
      let alert : Alert := {
        id := newAlertId, type := "incident",
        touristId := some t.id, lat := incident.lat, lng := incident.lng,
        message := "Incident reported: " ++ title.getD "",
        description := description, severity := incident.severity,
        status := "active", authorityId := none,
        createdAt := now, updatedAt := now }
      (.created, { st with
        incidents := incident :: st.incidents,
        alerts := alert :: st.alerts })

/-- POST /fences (geo routes).  Role gate, then the required-field
check by JavaScript truthiness (`!name || !type || !center || !radius
|| !region`), so a radius of zero is rejected as missing while a
negative radius passes; no range check is applied to the coordinates.
The radius is stored through `parseInt`. -/
def createFence (st : ServerState) (user : AuthUser)
    (name description type region : Option String)
    (center : Option (ℚ × ℚ)) (radius : Option ℚ) (newId : Nat) :
    HttpResult × ServerState :=
  if user.userType != "authority" then
    (.forbidden "Access denied. Only authorities can create geo-fences.", st)
  else if !(jsTruthyStr name && jsTruthyStr type && center.isSome &&
      jsTruthyNum radius && jsTruthyStr region) then
    (.badRequest
      "Name, type, center coordinates, radius, and region are required", st)
  else
    match findAuthorityByUserId st user.userId with
    | none => (.serverError, st)
    | some auth =>
      let c := center.getD (0, 0)
      let f : GeoFence := {
        id := newId, name := name.getD "",
        description := description, type := type.getD "",
        lat := c.1, lng := c.2,
        radius := (jsParseInt (radius.getD 0) : ℚ),
        region := region.getD "", isActive := true,
        createdBy := some auth.id }
      (.created, { st with fences := f :: st.fences })

/-- PUT /fences/:id (geo routes).  Role gate, then each field of the
body is applied only when truthy (`isActive` when present); a falsy
radius, zero included, is silently ignored and any truthy radius,
negative included, is stored through `parseInt` with no validation. -/
def updateFence (st : ServerState) (user : AuthUser) (fenceId : Nat)
    (name description type : Option String) (center : Option (ℚ × ℚ))
    (radius : Option ℚ) (isActive : Option Bool) :
    HttpResult × ServerState :=
  if user.userType != "authority" then
    (.forbidden "Access denied. Only authorities can update geo-fences.", st)
  else
    match findFenceById st fenceId with
    | none => (.notFound "Geo-fence not found", st)
    | some f =>
      let f' := { f with
        name := if jsTruthyStr name then name.getD "" else f.name,
        description := if jsTruthyStr description then description
                       else f.description,
        type := if jsTruthyStr type then type.getD "" else f.type,
        lat := match center with | some c => c.1 | none => f.lat,
        lng := match center with | some c => c.2 | none => f.lng,
        radius := if jsTruthyNum radius then (jsParseInt (radius.getD 0) : ℚ)
                  else f.radius,
        isActive := isActive.getD f.isActive }
      (.ok, saveFenceById st f')

/-- The `calculateSafetyScore` helper of the tourist routes: base 85,
minus 30 inside each active danger fence and minus 15 within twice its
radius, minus 10 during the night hours (hour at least 22 or at most
5), minus 5 for each alert of type incident or sos within 1000 meters
created within the last 24 hours, clamped to the range 0 to 100. -/
noncomputable def calculateSafetyScore (lat lng : ℚ) (fences : List GeoFence)
    (alerts : List Alert) (hour : ℕ) (nowMs : ℤ) : ℤ :=
  let base : ℤ := 85
  let dangerZones := fences.filter (fun z => z.type == "danger" && z.isActive)
  let zoneScore := dangerZones.foldl (fun s z =>
    if calculateDistance (lat : ℝ) (lng : ℝ) (z.lat : ℝ) (z.lng : ℝ) ≤
        (z.radius : ℝ) then s - 30
    else if calculateDistance (lat : ℝ) (lng : ℝ) (z.lat : ℝ) (z.lng : ℝ) ≤
        (z.radius : ℝ) * 2 then s - 15
    else s) base
  let nightScore := if 22 ≤ hour ∨ hour ≤ 5 then zoneScore - 10 else zoneScore
  let recentAlerts := alerts.filter (fun a =>
    (a.type == "incident" || a.type == "sos") &&
    decide (calculateDistance (lat : ℝ) (lng : ℝ) (a.lat : ℝ) (a.lng : ℝ) ≤
      1000) &&
    decide (nowMs - 86400000 ≤ a.createdAt))
  let score := nightScore - 5 * (recentAlerts.length : ℤ)
  max 0 (min 100 score)

/-- POST /check-location (geo routes): the list of active fences whose
haversine distance to the queried point is at most their radius. -/
noncomputable def checkLocationFences (fences : List GeoFence)
    (lat lng : ℚ) : List GeoFence :=
  (fences.filter (fun f => f.isActive)).filter (fun f =>
    decide (calculateDistance (lat : ℝ) (lng : ℝ) (f.lat : ℝ) (f.lng : ℝ) ≤
      (f.radius : ℝ)))

/-- POST /check-location (geo routes).  The required-field check uses
JavaScript truthiness (`!lat || !lng`); on success the containing
fences are returned and nothing is stored. -/
noncomputable def checkLocationHandler (st : ServerState)
    (lat lng : Option ℚ) : HttpResult × Option (List GeoFence) :=
  if !(jsTruthyNum lat && jsTruthyNum lng) then
    (.badRequest "Latitude and longitude are required", none)
  else
    (.ok, some (checkLocationFences st.fences (lat.getD 0) (lng.getD 0)))

/-- POST /location (tourist routes).  The required-field check uses
JavaScript truthiness (`!lat || !lng`); on success the tourist location
and freshly computed safety score are stored. -/
noncomputable def updateLocation (st : ServerState) (user : AuthUser)
    (lat lng : Option ℚ) (hour : ℕ) (nowMs : ℤ) : HttpResult × ServerState :=
  if !(jsTruthyNum lat && jsTruthyNum lng) then
    (.badRequest "Latitude and longitude are required", st)
  else
    match findTouristByUserId st user.userId with
    | none => (.notFound "Tourist profile not found", st)
    | some t =>
      let la := lat.getD 0
      let ln := lng.getD 0
      let t' := { t with
        currentLocation := some (la, ln, nowMs),
        safetyScore := calculateSafetyScore la ln st.fences st.alerts hour
          nowMs }
      (.ok, { st with tourists := st.tourists.map (fun x =>
        if x.id == t.id then t' else x) })

/-- Modelled from the spec wording for the score: an active risk zone
(the code calls the kind `danger`). -/
def isRiskZone (z : GeoFence) : Bool :=
  z.type == "danger" && z.isActive

/-- Modelled from the spec wording: the number of active risk zones
whose center is within their radius of the point. -/
noncomputable def containingRiskCount (lat lng : ℚ)
    (fences : List GeoFence) : ℕ :=
  ((fences.filter (fun z => isRiskZone z)).filter (fun z =>
    decide (calculateDistance (lat : ℝ) (lng : ℝ) (z.lat : ℝ) (z.lng : ℝ) ≤
      (z.radius : ℝ)))).length

/-- Modelled from the spec wording: the number of active risk zones at
distance in the half open interval from the radius to twice the
radius. -/
noncomputable def nearRiskCount (lat lng : ℚ) (fences : List GeoFence) : ℕ :=
  ((fences.filter (fun z => isRiskZone z)).filter (fun z =>
    decide ((z.radius : ℝ) <
        calculateDistance (lat : ℝ) (lng : ℝ) (z.lat : ℝ) (z.lng : ℝ) ∧
      calculateDistance (lat : ℝ) (lng : ℝ) (z.lat : ℝ) (z.lng : ℝ) ≤
        (z.radius : ℝ) * 2))).length

/-- Modelled from the spec wording: the number of alerts of kind sos or
incident within 1000 meters created within the preceding 24 hours. -/
noncomputable def recentNearbyCount (lat lng : ℚ) (alerts : List Alert)
    (nowMs : ℤ) : ℕ :=
  (alerts.filter (fun a =>
    (a.type == "incident" || a.type == "sos") &&
    decide (calculateDistance (lat : ℝ) (lng : ℝ) (a.lat : ℝ) (a.lng : ℝ) ≤
      1000) &&
    decide (nowMs - 86400000 ≤ a.createdAt))).length

/-- Modelled from the spec wording: the night deduction, 10 when the
hour is 22, 23, or 0 through 5, else 0. -/
def nightPenalty (hour : ℕ) : ℤ :=
  if 22 ≤ hour ∨ hour ≤ 5 then 10 else 0

/-- An authority caller used as concrete input. -/
def authUser1 : AuthUser := { userId := 7, userType := "authority" }

/-- A tourist caller used as concrete input. -/
def touristUser1 : AuthUser := { userId := 3, userType := "tourist" }

/-- An authority profile for `authUser1`. -/
def authority1 : Authority :=
  { id := 70, userId := 7, isOnDuty := true,
    department := "Police Department" }

/-- A tourist profile used as concrete input. -/
def tourist1 : Tourist :=
  { id := 20, userId := 3, name := "Asha", status := "emergency",
    locationSharing := true, currentLocation := none, safetyScore := 85 }

/-- A stored sos alert in status active. -/
def sosAlert1 : Alert :=
  { id := 1, type := "sos", touristId := some 20, lat := 1, lng := 2,
    message := "help", description := none, severity := "critical",
    status := "active", authorityId := none, createdAt := 0, updatedAt := 0 }

/-- A concrete server state with one active sos alert, one tourist and
one authority. -/
def stC1 : ServerState :=
  { alerts := [sosAlert1], tourists := [tourist1],
    authorities := [authority1], fences := [], incidents := [] }

/-- A concrete server state with one authority and nothing else. -/
def stC6 : ServerState :=
  { alerts := [], tourists := [], authorities := [authority1],
    fences := [], incidents := [] }

/-- An active danger fence of radius 100 centered at the origin. -/
def fence0 : GeoFence :=
  { id := 1, name := "Zone", description := none, type := "danger",
    lat := 0, lng := 0, radius := 100, region := "R", isActive := true,
    createdBy := none }

/-- A concrete server state with one authority and one fence. -/
def stF6 : ServerState :=
  { alerts := [], tourists := [], authorities := [authority1],
    fences := [fence0], incidents := [] }

/-- A tourist profile whose user also holds the authority profile
`authority1`, so that one caller exercises both sides of the SOS
lifecycle. -/
def tourist7 : Tourist :=
  { id := 20, userId := 7, name := "Asha", status := "active",
    locationSharing := true, currentLocation := none, safetyScore := 85 }

/-- A concrete server state for the SOS lifecycle scenario. -/
def stC7 : ServerState :=
  { alerts := [sosAlert1], tourists := [tourist7],
    authorities := [authority1], fences := [], incidents := [] }

/-- A fresh sos alert at the origin. -/
def alert0 : Alert :=
  { id := 2, type := "sos", touristId := none, lat := 0, lng := 0,
    message := "help", description := none, severity := "high",
    status := "active", authorityId := none, createdAt := 0, updatedAt := 0 }

theorem atan2_zero_one : atan2 0 1 = 0 := by
  simp [atan2]

theorem haversineA_self (lat lng : ℝ) : haversineA lat lng lat lng = 0 := by
  simp [haversineA]

theorem calculateDistance_self (lat lng : ℝ) :
    calculateDistance lat lng lat lng = 0 := by
  simp [calculateDistance, haversineA_self, atan2_zero_one]

theorem haversineA_symm (lat1 lng1 lat2 lng2 : ℝ) :
    haversineA lat1 lng1 lat2 lng2 = haversineA lat2 lng2 lat1 lng1 := by
  unfold haversineA
  have h1 : (lat1 - lat2) * Real.pi / 180 / 2 =
      -((lat2 - lat1) * Real.pi / 180 / 2) := by ring
  have h2 : (lng1 - lng2) * Real.pi / 180 / 2 =
      -((lng2 - lng1) * Real.pi / 180 / 2) := by ring
  rw [h1, h2]
  simp only [Real.sin_neg]
  ring

theorem calculateDistance_symm (lat1 lng1 lat2 lng2 : ℝ) :
    calculateDistance lat1 lng1 lat2 lng2 =
      calculateDistance lat2 lng2 lat1 lng1 := by
  unfold calculateDistance
  rw [haversineA_symm]


theorem find?_map_modify {α : Type} (idOf : α → Nat) (i : Nat) (f : α → α)
    (hf : ∀ t, idOf t = i → idOf (f t) = i) (l : List α) :
    (l.map (fun t => if idOf t == i then f t else t)).find?
        (fun t => idOf t == i) =
      (l.find? (fun t => idOf t == i)).map f := by
  induction l with
  | nil => simp
  | cons x xs ih =>
    by_cases hx : idOf x = i
    · simp [List.find?, hx, hf x hx]
    · simp only [List.map_cons]
      rw [if_neg (by simp [hx])]
      rw [List.find?_cons_of_neg _ (by simp [hx]),
        List.find?_cons_of_neg _ (by simp [hx])]
      exact ih

theorem find?_stronger {α : Type} (p q : α → Bool) (l : List α) (a : α)
    (h : l.find? p = some a) (hq : q a = true)
    (himp : ∀ x, q x = true → p x = true) : l.find? q = some a := by
  induction l with
  | nil => simp at h
  | cons x xs ih =>
    by_cases hp : p x = true
    · rw [List.find?_cons_of_pos _ hp] at h
      cases h
      rw [List.find?_cons_of_pos _ hq]
    · rw [List.find?_cons_of_neg _ (by simpa using hp)] at h
      have hqx : ¬ q x = true := fun hc => hp (himp x hc)
      rw [List.find?_cons_of_neg _ (by simpa using hqx)]
      exact ih h

theorem find?_map_replace {α : Type} (idOf : α → Nat) (l : List α) (a' : α)
    (i : Nat) (hi : idOf a' = i) (h : ∃ x ∈ l, idOf x = i) :
    (l.map (fun x => if idOf x == idOf a' then a' else x)).find?
      (fun x => idOf x == i) = some a' := by
  induction l with
  | nil => simp at h
  | cons x xs ih =>
    by_cases hx : idOf x = i
    · simp [List.find?, hx, hi]
    · obtain ⟨y, hy, hyi⟩ := h
      have hyxs : y ∈ xs := by
        rcases List.mem_cons.mp hy with h1 | h1
        · exact absurd (h1 ▸ hyi) hx
        · exact h1
      simp only [List.map_cons]
      rw [if_neg (by simp [hi]; exact hx)]
      rw [List.find?_cons_of_neg _ (by simp [hx])]
      exact ih ⟨y, hyxs, hyi⟩

/-- C9: for every valid position the distance from the position to
itself is zero, and for every pair of valid positions the distance is
symmetric in its endpoints. -/
theorem distance_self_and_symm (plat plng alat alng blat blng : ℝ)
    (hp : -90 ≤ plat ∧ plat ≤ 90 ∧ -180 ≤ plng ∧ plng ≤ 180)
    (ha : -90 ≤ alat ∧ alat ≤ 90 ∧ -180 ≤ alng ∧ alng ≤ 180)
    (hb : -90 ≤ blat ∧ blat ≤ 90 ∧ -180 ≤ blng ∧ blng ≤ 180) :
    calculateDistance plat plng plat plng = 0 ∧
    calculateDistance alat alng blat blng =
      calculateDistance blat blng alat alng :=
  ⟨calculateDistance_self plat plng,
   calculateDistance_symm alat alng blat blng⟩

/-- C9 witness at the positions (10, 20), (0, 0) and (45, 90). -/
theorem distance_self_and_symm_witness :
    calculateDistance 10 20 10 20 = 0 ∧
    calculateDistance 0 0 45 90 = calculateDistance 45 90 0 0 :=
  distance_self_and_symm 10 20 0 0 45 90 (by norm_num) (by norm_num)
    (by norm_num)

/-- C4 counterexample: with the position, the zone set and the alert
set all fixed, two runs at different evaluation hours return different
scores, so the score is not a function of those three inputs alone. -/
theorem safety_score_time_dependent :
    calculateSafetyScore 0 0 [] [] 12 0 ≠ calculateSafetyScore 0 0 [] [] 23 0 := by
  have h1 : calculateSafetyScore 0 0 [] [] 12 0 = 85 := by
    simp [calculateSafetyScore]
  have h2 : calculateSafetyScore 0 0 [] [] 23 0 = 75 := by
    simp [calculateSafetyScore]
  rw [h1, h2]
  norm_num

/-- C4 (amended): the safety score is deterministic once the evaluation
time (hour and clock milliseconds) is included among the fixed inputs,
and the returned score always lies in the range 0 to 100. -/
theorem safety_score_deterministic_range (lat lng : ℚ)
    (fences : List GeoFence) (alerts : List Alert) (hour : ℕ) (nowMs : ℤ) :
    calculateSafetyScore lat lng fences alerts hour nowMs =
      calculateSafetyScore lat lng fences alerts hour nowMs ∧
    0 ≤ calculateSafetyScore lat lng fences alerts hour nowMs ∧
    calculateSafetyScore lat lng fences alerts hour nowMs ≤ 100 := by
  refine ⟨rfl, ?_, ?_⟩
  · simp only [calculateSafetyScore]
    exact le_max_left 0 _
  · simp only [calculateSafetyScore]
    exact max_le (by norm_num) (min_le_left 100 _)

/-- C10: a location check or location update whose latitude or
longitude equals zero is rejected by the JavaScript truthiness check
with the missing coordinates message, and the server state is returned
unchanged, so nothing is computed or stored. -/
theorem zero_coordinate_rejected (st : ServerState) (user : AuthUser)
    (lat lng : Option ℚ) (hour : ℕ) (nowMs : ℤ)
    (h : lat = some 0 ∨ lng = some 0) :
    checkLocationHandler st lat lng =
      (.badRequest "Latitude and longitude are required", none) ∧
    updateLocation st user lat lng hour nowMs =
      (.badRequest "Latitude and longitude are required", st) := by
  have hfalsy : (jsTruthyNum lat && jsTruthyNum lng) = false := by
    rcases h with h | h <;> subst h <;> simp [jsTruthyNum]
  constructor
  · simp [checkLocationHandler, hfalsy]
  · simp [updateLocation, hfalsy]

/-- C10 witness: a request with latitude 0 and longitude 77. -/
theorem zero_coordinate_rejected_witness :
    checkLocationHandler stC6 (some 0) (some 77) =
      (.badRequest "Latitude and longitude are required", none) ∧
    updateLocation stC6 touristUser1 (some 0) (some 77) 12 0 =
      (.badRequest "Latitude and longitude are required", stC6) :=
  zero_coordinate_rejected stC6 touristUser1 (some 0) (some 77) 12 0
    (Or.inl rfl)

/-- C2 counterexample: on the admin route a tourist caller requesting a
status update is not rejected with the permission error; the missing
authority profile makes the handler dereference null and answer with a
500 server error (the state is still unchanged). -/
theorem admin_status_update_tourist_no_permission_error :
    adminUpdateAlertStatus stC1 touristUser1 1 "resolved" 5 =
      (HttpResult.serverError, stC1) := by decide

/-- C2 (amended): the SOS status route and the alert status route
reject every caller whose type is not authority with a 403 permission
error and change nothing; the admin status route has no role check and
a non authority caller, having no authority profile, receives a 500
server error instead (or a 400 for an unknown status name), in every
case with the state unchanged. -/
theorem transition_role_gating (st : ServerState) (user : AuthUser)
    (i : Nat) (status : String) (notes : Option String) (now : ℤ)
    (hrole : user.userType ≠ "authority")
    (hnoauth : findAuthorityByUserId st user.userId = none) :
    updateSosStatus st user i status notes now =
      (.forbidden "Access denied. Only authorities can update SOS status.",
        st) ∧
    updateAlertStatus st user i status now =
      (.forbidden "Access denied. Only authorities can update alert status.",
        st) ∧
    (status ∈ ["acknowledged", "responding", "resolved", "closed"] →
      adminUpdateAlertStatus st user i status now = (.serverError, st)) ∧
    (status ∉ ["acknowledged", "responding", "resolved", "closed"] →
      adminUpdateAlertStatus st user i status now =
        (.badRequest "Invalid status", st)) := by
  refine ⟨?_, ?_, ?_, ?_⟩
  · simp [updateSosStatus, hrole]
  · simp [updateAlertStatus, hrole]
  · intro hmem
    simp [adminUpdateAlertStatus, hmem, hnoauth]
  · intro hmem
    simp [adminUpdateAlertStatus, hmem]

/-- C2 witness: a tourist caller on each of the three routes. -/
theorem transition_role_gating_witness :
    updateSosStatus stC1 touristUser1 1 "acknowledged" none 5 =
      (.forbidden "Access denied. Only authorities can update SOS status.",
        stC1) ∧
    updateAlertStatus stC1 touristUser1 1 "acknowledged" 5 =
      (.forbidden "Access denied. Only authorities can update alert status.",
        stC1) ∧
    (("acknowledged" : String) ∈
        ["acknowledged", "responding", "resolved", "closed"] →
      adminUpdateAlertStatus stC1 touristUser1 1 "acknowledged" 5 =
        (.serverError, stC1)) ∧
    (("acknowledged" : String) ∉
        ["acknowledged", "responding", "resolved", "closed"] →
      adminUpdateAlertStatus stC1 touristUser1 1 "acknowledged" 5 =
        (.badRequest "Invalid status", stC1)) :=
  transition_role_gating stC1 touristUser1 1 "acknowledged" none 5
    (by decide) (by decide)

theorem findAlertById_saveAlertById (st : ServerState) (a' : Alert)
    (i : Nat) (hi : a'.id = i) (h : ∃ x ∈ st.alerts, x.id = i) :
    findAlertById (saveAlertById st a') i = some a' := by
  unfold findAlertById saveAlertById
  exact find?_map_replace Alert.id st.alerts a' i hi h

theorem findAlertById_setTouristStatus (st : ServerState) (j : Nat)
    (s : String) (i : Nat) :
    findAlertById (setTouristStatusById st j s) i = findAlertById st i := rfl

theorem findTouristById_saveAlertById (st : ServerState) (a : Alert)
    (i : Nat) :
    findTouristById (saveAlertById st a) i = findTouristById st i := rfl

theorem findTouristById_setStatus (st : ServerState) (i : Nat) (s : String) :
    findTouristById (setTouristStatusById st i s) i =
      (findTouristById st i).map (fun t => { t with status := s }) := by
  unfold findTouristById setTouristStatusById
  exact find?_map_modify Tourist.id i (fun t => { t with status := s })
    (fun t ht => ht) st.tourists

theorem updateAlertStatus_tourists (st : ServerState) (user : AuthUser)
    (i : Nat) (s : String) (n : ℤ) :
    (updateAlertStatus st user i s n).2.tourists = st.tourists := by
  unfold updateAlertStatus
  split
  · rfl
  · split
    · rfl
    · split <;> rfl

theorem adminUpdateAlertStatus_tourists (st : ServerState) (user : AuthUser)
    (i : Nat) (s : String) (n : ℤ) :
    (adminUpdateAlertStatus st user i s n).2.tourists = st.tourists := by
  unfold adminUpdateAlertStatus
  split
  · rfl
  · split
    · rfl
    · split <;> rfl

/-- C5: an active zone reported by the location check contains the
point exactly when the haversine distance to its center is at most its
radius; a point at distance exactly the radius is contained and one at
any positive distance beyond it is not. -/
theorem zone_containment_boundary_inclusive (fences : List GeoFence)
    (f : GeoFence) (lat lng : ℚ) (ε : ℝ)
    (hf : f ∈ fences) (hact : f.isActive = true) (hε : 0 < ε) :
    (f ∈ checkLocationFences fences lat lng ↔
      calculateDistance (lat : ℝ) (lng : ℝ) (f.lat : ℝ) (f.lng : ℝ) ≤
        (f.radius : ℝ)) ∧
    (calculateDistance (lat : ℝ) (lng : ℝ) (f.lat : ℝ) (f.lng : ℝ) =
        (f.radius : ℝ) → f ∈ checkLocationFences fences lat lng) ∧
    (calculateDistance (lat : ℝ) (lng : ℝ) (f.lat : ℝ) (f.lng : ℝ) =
        (f.radius : ℝ) + ε → f ∉ checkLocationFences fences lat lng) := by
  have hmem : f ∈ checkLocationFences fences lat lng ↔
      calculateDistance (lat : ℝ) (lng : ℝ) (f.lat : ℝ) (f.lng : ℝ) ≤
        (f.radius : ℝ) := by
    simp [checkLocationFences, List.mem_filter, hf, hact]
  refine ⟨hmem, ?_, ?_⟩
  · intro h
    exact hmem.mpr (le_of_eq h)
  · intro h hin
    have hle := hmem.mp hin
    rw [h] at hle
    linarith

/-- C5 witness at the fence of radius 100 and the point (3, 4). -/
theorem zone_containment_boundary_inclusive_witness :
    (fence0 ∈ checkLocationFences [fence0] 3 4 ↔
      calculateDistance ((3 : ℚ) : ℝ) ((4 : ℚ) : ℝ) (fence0.lat : ℝ)
        (fence0.lng : ℝ) ≤ (fence0.radius : ℝ)) ∧
    (calculateDistance ((3 : ℚ) : ℝ) ((4 : ℚ) : ℝ) (fence0.lat : ℝ)
        (fence0.lng : ℝ) = (fence0.radius : ℝ) →
      fence0 ∈ checkLocationFences [fence0] 3 4) ∧
    (calculateDistance ((3 : ℚ) : ℝ) ((4 : ℚ) : ℝ) (fence0.lat : ℝ)
        (fence0.lng : ℝ) = (fence0.radius : ℝ) + 1 →
      fence0 ∉ checkLocationFences [fence0] 3 4) :=
  zone_containment_boundary_inclusive [fence0] fence0 3 4 1
    (List.mem_singleton.mpr rfl) rfl (by norm_num)

/-- C6 counterexample: with every required field truthy, a create
request with negative radius and out of range coordinates is accepted
and the fence is persisted with radius -5 and latitude 200, not
rejected with a validation error. -/
theorem create_fence_accepts_negative_radius :
    (createFence stC6 authUser1 (some "Zone") none (some "danger")
        (some "R") (some (200, 300)) (some (-5)) 9).1 = HttpResult.created ∧
    ((createFence stC6 authUser1 (some "Zone") none (some "danger")
        (some "R") (some (200, 300)) (some (-5)) 9).2.fences.head?.map
      GeoFence.radius) = some (-5) ∧
    ((createFence stC6 authUser1 (some "Zone") none (some "danger")
        (some "R") (some (200, 300)) (some (-5)) 9).2.fences.head?.map
      GeoFence.lat) = some 200 := by decide

/-- C6 (amended): fence requests are validated only by JavaScript
truthiness of the required fields: a zero radius is rejected on create
with the generic required fields message, while any nonzero radius,
negative included, and arbitrary numeric coordinates are persisted; on
update a zero radius is silently ignored with no error and any nonzero
radius is stored through parseInt with no validation. -/
theorem fence_validation_falsy_only (st : ServerState) (user : AuthUser)
    (name description type region : Option String) (center : Option (ℚ × ℚ))
    (radius : Option ℚ) (newId fenceId : Nat) (f : GeoFence)
    (auth : Authority)
    (hrole : user.userType = "authority")
    (hauth : findAuthorityByUserId st user.userId = some auth)
    (hf : findFenceById st fenceId = some f) :
    (createFence st user name description type region center (some 0) newId =
      (.badRequest
        "Name, type, center coordinates, radius, and region are required",
        st)) ∧
    (jsTruthyStr name = true → jsTruthyStr type = true →
      center.isSome = true → jsTruthyNum radius = true →
      jsTruthyStr region = true →
      (createFence st user name description type region center radius
          newId).1 = HttpResult.created ∧
      ((createFence st user name description type region center radius
          newId).2.fences.head?.map GeoFence.radius) =
        some ((jsParseInt (radius.getD 0) : ℤ) : ℚ) ∧
      ((createFence st user name description type region center radius
          newId).2.fences.head?.map GeoFence.lat) = center.map Prod.fst) ∧
    ((updateFence st user fenceId none none none none (some 0) none).1 =
        HttpResult.ok ∧
      (findFenceById (updateFence st user fenceId none none none none
          (some 0) none).2 fenceId).map GeoFence.radius = some f.radius) ∧
    (∀ q : ℚ, q ≠ 0 →
      (findFenceById (updateFence st user fenceId none none none none
          (some q) none).2 fenceId).map GeoFence.radius =
        some ((jsParseInt q : ℤ) : ℚ)) := by
  have hfid : f.id = fenceId := by
    have := List.find?_some hf
    simpa using this
  have hfmem : f ∈ st.fences := List.mem_of_find?_eq_some hf
  refine ⟨?_, ?_, ?_, ?_⟩
  · simp [createFence, hrole, jsTruthyNum]
  · intro hn htp hc hr hrg
    obtain ⟨c0, hc0⟩ := Option.isSome_iff_exists.mp hc
    subst hc0
    simp [createFence, hrole, hn, htp, hr, hrg, hauth]
  · constructor
    · simp [updateFence, hrole, hf]
    · simp only [updateFence, hrole]
      rw [if_neg (by simp)]
      simp only [hf]
      rw [findFenceById, saveFenceById]
      rw [find?_map_replace GeoFence.id st.fences _ fenceId (by simp [hfid])
        ⟨f, hfmem, hfid⟩]
      simp [jsTruthyNum]
  · intro q hq
    simp only [updateFence, hrole]
    rw [if_neg (by simp)]
    simp only [hf]
    rw [findFenceById, saveFenceById]
    rw [find?_map_replace GeoFence.id st.fences _ fenceId (by simp [hfid])
      ⟨f, hfmem, hfid⟩]
    simp [jsTruthyNum, hq]

/-- C6 witness: an authority creating with radius zero is rejected,
creating with radius -5 persists -5, updating with radius zero keeps
the stored radius 100, updating with a nonzero radius stores it. -/
theorem fence_validation_falsy_only_witness :
    (createFence stF6 authUser1 (some "Zone") none (some "danger")
        (some "R") (some (200, 300)) (some 0) 9 =
      (.badRequest
        "Name, type, center coordinates, radius, and region are required",
        stF6)) ∧
    (jsTruthyStr (some "Zone") = true → jsTruthyStr (some "danger") = true →
      (some ((200 : ℚ), (300 : ℚ)) : Option (ℚ × ℚ)).isSome = true →
      jsTruthyNum (some (-5)) = true → jsTruthyStr (some "R") = true →
      (createFence stF6 authUser1 (some "Zone") none (some "danger")
          (some "R") (some (200, 300)) (some (-5)) 9).1 =
        HttpResult.created ∧
      ((createFence stF6 authUser1 (some "Zone") none (some "danger")
          (some "R") (some (200, 300)) (some (-5)) 9).2.fences.head?.map
        GeoFence.radius) =
        some ((jsParseInt ((some (-5 : ℚ)).getD 0) : ℤ) : ℚ) ∧
      ((createFence stF6 authUser1 (some "Zone") none (some "danger")
          (some "R") (some (200, 300)) (some (-5)) 9).2.fences.head?.map
        GeoFence.lat) = (some ((200 : ℚ), (300 : ℚ))).map Prod.fst) ∧
    ((updateFence stF6 authUser1 1 none none none none (some 0) none).1 =
        HttpResult.ok ∧
      (findFenceById (updateFence stF6 authUser1 1 none none none none
          (some 0) none).2 1).map GeoFence.radius = some fence0.radius) ∧
    (∀ q : ℚ, q ≠ 0 →
      (findFenceById (updateFence stF6 authUser1 1 none none none none
          (some q) none).2 1).map GeoFence.radius =
        some ((jsParseInt q : ℤ) : ℚ)) :=
  fence_validation_falsy_only stF6 authUser1 (some "Zone") none
    (some "danger") (some "R") (some (200, 300)) (some (-5)) 9 1 fence0
    authority1 rfl (by decide) (by decide)

/-- C8: a successful incident filing adds exactly one alert, of type
incident, in status active, with the severity of the stored incident
and a message synthesized from the title. -/
theorem incident_creates_linked_alert (st : ServerState) (user : AuthUser)
    (type title description : Option String) (location : Option (ℚ × ℚ))
    (severity : Option String) (witnesses evidences : Option (List String))
    (now : ℤ) (nid naid : Nat) (t : Tourist)
    (htype : jsTruthyStr type = true) (htitle : jsTruthyStr title = true)
    (hdesc : jsTruthyStr description = true) (hloc : location.isSome = true)
    (ht : findTouristByUserId st user.userId = some t) :
    (fileIncident st user type title description location severity witnesses
        evidences now nid naid).1 = HttpResult.created ∧
    (fileIncident st user type title description location severity witnesses
        evidences now nid naid).2.alerts.tail = st.alerts ∧
    (fileIncident st user type title description location severity witnesses
        evidences now nid naid).2.incidents.tail = st.incidents ∧
    ((fileIncident st user type title description location severity witnesses
        evidences now nid naid).2.alerts.head?.map Alert.type) =
      some "incident" ∧
    ((fileIncident st user type title description location severity witnesses
        evidences now nid naid).2.alerts.head?.map Alert.status) =
      some "active" ∧
    ((fileIncident st user type title description location severity witnesses
        evidences now nid naid).2.alerts.head?.map Alert.severity) =
      ((fileIncident st user type title description location severity
        witnesses evidences now nid naid).2.incidents.head?.map
        Incident.severity) ∧
    ((fileIncident st user type title description location severity witnesses
        evidences now nid naid).2.alerts.head?.map Alert.message) =
      some ("Incident reported: " ++ title.getD "") := by
  have hguard : (jsTruthyStr type && jsTruthyStr title &&
      jsTruthyStr description && location.isSome) = true := by
    simp [htype, htitle, hdesc, hloc]
  refine ⟨?_, ?_, ?_, ?_, ?_, ?_, ?_⟩ <;>
    simp [fileIncident, hguard, ht]

/-- C8 witness: a concrete incident filed by the tourist of `stC1`. -/
theorem incident_creates_linked_alert_witness :
    (fileIncident stC1 touristUser1 (some "theft") (some "Bag stolen")
        (some "Bag stolen at the market") (some (10, 20)) (some "high")
        none none 5 31 32).1 = HttpResult.created ∧
    (fileIncident stC1 touristUser1 (some "theft") (some "Bag stolen")
        (some "Bag stolen at the market") (some (10, 20)) (some "high")
        none none 5 31 32).2.alerts.tail = stC1.alerts ∧
    (fileIncident stC1 touristUser1 (some "theft") (some "Bag stolen")
        (some "Bag stolen at the market") (some (10, 20)) (some "high")
        none none 5 31 32).2.incidents.tail = stC1.incidents ∧
    ((fileIncident stC1 touristUser1 (some "theft") (some "Bag stolen")
        (some "Bag stolen at the market") (some (10, 20)) (some "high")
        none none 5 31 32).2.alerts.head?.map Alert.type) = some "incident" ∧
    ((fileIncident stC1 touristUser1 (some "theft") (some "Bag stolen")
        (some "Bag stolen at the market") (some (10, 20)) (some "high")
        none none 5 31 32).2.alerts.head?.map Alert.status) = some "active" ∧
    ((fileIncident stC1 touristUser1 (some "theft") (some "Bag stolen")
        (some "Bag stolen at the market") (some (10, 20)) (some "high")
        none none 5 31 32).2.alerts.head?.map Alert.severity) =
      ((fileIncident stC1 touristUser1 (some "theft") (some "Bag stolen")
        (some "Bag stolen at the market") (some (10, 20)) (some "high")
        none none 5 31 32).2.incidents.head?.map Incident.severity) ∧
    ((fileIncident stC1 touristUser1 (some "theft") (some "Bag stolen")
        (some "Bag stolen at the market") (some (10, 20)) (some "high")
        none none 5 31 32).2.alerts.head?.map Alert.message) =
      some ("Incident reported: " ++ (some "Bag stolen").getD "") :=
  incident_creates_linked_alert stC1 touristUser1 (some "theft")
    (some "Bag stolen") (some "Bag stolen at the market") (some (10, 20))
    (some "high") none none 5 31 32 tourist1 rfl rfl rfl rfl (by decide)

theorem zone_fold_closed_form (lat lng : ℚ) (zs : List GeoFence) (s : ℤ) :
    zs.foldl (fun s z =>
      if calculateDistance (lat : ℝ) (lng : ℝ) (z.lat : ℝ) (z.lng : ℝ) ≤
          (z.radius : ℝ) then s - 30
      else if calculateDistance (lat : ℝ) (lng : ℝ) (z.lat : ℝ) (z.lng : ℝ) ≤
          (z.radius : ℝ) * 2 then s - 15
      else s) s =
    s - 30 * ((zs.filter (fun z =>
        decide (calculateDistance (lat : ℝ) (lng : ℝ) (z.lat : ℝ)
          (z.lng : ℝ) ≤ (z.radius : ℝ)))).length : ℤ) -
      15 * ((zs.filter (fun z =>
        decide ((z.radius : ℝ) <
            calculateDistance (lat : ℝ) (lng : ℝ) (z.lat : ℝ) (z.lng : ℝ) ∧
          calculateDistance (lat : ℝ) (lng : ℝ) (z.lat : ℝ) (z.lng : ℝ) ≤
            (z.radius : ℝ) * 2))).length : ℤ) := by
  induction zs generalizing s with
  | nil => simp
  | cons z zs ih =>
    simp only [List.foldl_cons, List.filter_cons]
    by_cases h1 : calculateDistance (lat : ℝ) (lng : ℝ) (z.lat : ℝ)
        (z.lng : ℝ) ≤ (z.radius : ℝ)
    · have hn : ¬ ((z.radius : ℝ) <
          calculateDistance (lat : ℝ) (lng : ℝ) (z.lat : ℝ) (z.lng : ℝ) ∧
        calculateDistance (lat : ℝ) (lng : ℝ) (z.lat : ℝ) (z.lng : ℝ) ≤
          (z.radius : ℝ) * 2) := fun hc => absurd h1 (not_le.mpr hc.1)
      rw [if_pos h1]
      simp only [decide_eq_true_eq, h1, if_true, decide_eq_false hn,
        Bool.false_eq_true, if_false]
      rw [ih]
      push_cast [List.length_cons]
      ring
    · rw [if_neg h1]
      by_cases h2 : calculateDistance (lat : ℝ) (lng : ℝ) (z.lat : ℝ)
          (z.lng : ℝ) ≤ (z.radius : ℝ) * 2
      · have hy : (z.radius : ℝ) <
            calculateDistance (lat : ℝ) (lng : ℝ) (z.lat : ℝ) (z.lng : ℝ) ∧
          calculateDistance (lat : ℝ) (lng : ℝ) (z.lat : ℝ) (z.lng : ℝ) ≤
            (z.radius : ℝ) * 2 := ⟨not_le.mp h1, h2⟩
        rw [if_pos h2]
        simp only [decide_eq_true_eq, h1, if_false, decide_eq_true hy,
          if_true]
        rw [ih]
        push_cast [List.length_cons]
        ring
      · have hn : ¬ ((z.radius : ℝ) <
            calculateDistance (lat : ℝ) (lng : ℝ) (z.lat : ℝ) (z.lng : ℝ) ∧
          calculateDistance (lat : ℝ) (lng : ℝ) (z.lat : ℝ) (z.lng : ℝ) ≤
            (z.radius : ℝ) * 2) := fun hc => absurd hc.2 h2
        rw [if_neg h2]
        simp only [decide_eq_true_eq, h1, if_false, decide_eq_false hn,
          Bool.false_eq_true]
        exact ih s

/-- C3: the safety score equals base 85 minus 30 for each containing
active risk zone, minus 15 for each active risk zone with distance in
the interval from the radius to twice the radius, minus 10 during the
night hours, minus 5 for each recent nearby sos or incident alert,
clamped to the range from 0 to 100; at the spec example (one containing
zone, hour 23, one qualifying alert) the score is 40. -/
theorem safety_score_formula :
    (∀ (lat lng : ℚ) (fences : List GeoFence) (alerts : List Alert)
        (hour : ℕ) (nowMs : ℤ),
      calculateSafetyScore lat lng fences alerts hour nowMs =
        max 0 (min 100
          (85 - 30 * (containingRiskCount lat lng fences : ℤ) -
            15 * (nearRiskCount lat lng fences : ℤ) - nightPenalty hour -
            5 * (recentNearbyCount lat lng alerts nowMs : ℤ)))) ∧
    calculateSafetyScore 0 0 [fence0] [alert0] 23 0 = 40 := by
  have hgen : ∀ (lat lng : ℚ) (fences : List GeoFence)
      (alerts : List Alert) (hour : ℕ) (nowMs : ℤ),
      calculateSafetyScore lat lng fences alerts hour nowMs =
        max 0 (min 100
          (85 - 30 * (containingRiskCount lat lng fences : ℤ) -
            15 * (nearRiskCount lat lng fences : ℤ) - nightPenalty hour -
            5 * (recentNearbyCount lat lng alerts nowMs : ℤ))) := by
    intro lat lng fences alerts hour nowMs
    simp only [calculateSafetyScore, containingRiskCount, nearRiskCount,
      recentNearbyCount, nightPenalty, isRiskZone]
    rw [zone_fold_closed_form]
    by_cases hn : 22 ≤ hour ∨ hour ≤ 5
    · rw [if_pos hn, if_pos hn]
    · rw [if_neg hn, if_neg hn]
      congr 2
      ring
  refine ⟨hgen, ?_⟩
  rw [hgen]
  have hd : calculateDistance (0 : ℝ) 0 0 0 = 0 := calculateDistance_self 0 0
  have h100 : calculateDistance (0 : ℝ) 0 0 0 ≤ 100 := by
    rw [hd]; norm_num
  have h1000 : calculateDistance (0 : ℝ) 0 0 0 ≤ 1000 := by
    rw [hd]; norm_num
  have hlt : ¬ (100 : ℝ) < calculateDistance (0 : ℝ) 0 0 0 := by
    rw [hd]; norm_num
  have hc1 : containingRiskCount 0 0 [fence0] = 1 := by
    simp [containingRiskCount, isRiskZone, fence0, h100]
  have hc2 : nearRiskCount 0 0 [fence0] = 0 := by
    simp [nearRiskCount, isRiskZone, fence0, hlt]
  have hc3 : recentNearbyCount 0 0 [alert0] 0 = 1 := by
    simp [recentNearbyCount, alert0, h1000]
  rw [hc1, hc2, hc3]
  norm_num [nightPenalty]

/-- C1 counterexample: an authority moving a stored sos alert directly
from active to resolved succeeds with a 200 and the stored status
becomes resolved, where the claim requires an InvalidTransitionError
with the status left unchanged. -/
theorem sos_active_to_resolved_succeeds :
    (updateSosStatus stC1 authUser1 1 "resolved" none 5).1 = HttpResult.ok ∧
    ((findAlertById (updateSosStatus stC1 authUser1 1 "resolved" none 5).2
        1).map Alert.status) = some "resolved" := by decide

/-- C1 (amended): the status routes never consult the stored status:
for an authority caller, any requested status in the accepted name list
(acknowledged, responding, resolved for the SOS route, these plus
closed for the alert route) overwrites the stored status of any found
alert, whatever that status was; only a requested status outside the
accepted list is rejected, with a 400 Invalid status response and the
state unchanged. -/
theorem status_update_blind_overwrite (st : ServerState) (user : AuthUser)
    (i : Nat) (status : String) (a : Alert) (auth : Authority)
    (notes : Option String) (now : ℤ)
    (hrole : user.userType = "authority")
    (ha : findAlertById st i = some a)
    (hauth : findAuthorityByUserId st user.userId = some auth) :
    (status ∈ ["acknowledged", "responding", "resolved", "closed"] →
      (updateAlertStatus st user i status now).1 = HttpResult.ok ∧
      ((findAlertById (updateAlertStatus st user i status now).2 i).map
        Alert.status) = some status) ∧
    (status ∉ ["acknowledged", "responding", "resolved", "closed"] →
      updateAlertStatus st user i status now =
        (.badRequest "Invalid status", st)) ∧
    (a.type = "sos" → status ∈ ["acknowledged", "responding", "resolved"] →
      (updateSosStatus st user i status notes now).1 = HttpResult.ok ∧
      ((findAlertById (updateSosStatus st user i status notes now).2 i).map
        Alert.status) = some status) ∧
    (status ∉ ["acknowledged", "responding", "resolved"] →
      updateSosStatus st user i status notes now =
        (.badRequest "Invalid status", st)) := by
  have hamem : a ∈ st.alerts := List.mem_of_find?_eq_some ha
  have haid : a.id = i := by simpa using List.find?_some ha
  refine ⟨?_, ?_, ?_, ?_⟩
  · intro hmem
    constructor
    · simp [updateAlertStatus, hrole, hmem, ha]
    · simp only [updateAlertStatus]
      rw [if_neg (by simp [hrole]), if_neg (by simp [hmem])]
      simp only [ha]
      rw [findAlertById_saveAlertById st _ i (by exact haid)
        ⟨a, hamem, haid⟩]
      rfl
  · intro hmem
    simp [updateAlertStatus, hrole, hmem]
  · intro htype hmem
    have ha2 : st.alerts.find? (fun x => x.id == i) = some a := ha
    have hsos : findSosAlertById st i = some a := by
      unfold findSosAlertById
      refine find?_stronger (fun x => x.id == i)
        (fun x => x.id == i && x.type == "sos") st.alerts a ha2 ?_ ?_
      · simp [haid, htype]
      · intro x hx
        simp only [Bool.and_eq_true] at hx
        exact hx.1
    constructor
    · simp only [updateSosStatus]
      rw [if_neg (by simp [hrole]), if_neg (by simp [hmem])]
      simp only [hsos, hauth]
      by_cases hres : (status == "resolved") = true
      · rw [if_pos hres]
        cases a.touristId <;> rfl
      · rw [if_neg hres]
    · simp only [updateSosStatus]
      rw [if_neg (by simp [hrole]), if_neg (by simp [hmem])]
      simp only [hsos, hauth]
      by_cases hres : (status == "resolved") = true
      · rw [if_pos hres]
        cases a.touristId with
        | none =>
          simp only
          rw [findAlertById_saveAlertById st _ i (by exact haid)
            ⟨a, hamem, haid⟩]
          rfl
        | some tid =>
          simp only
          rw [findAlertById_setTouristStatus,
            findAlertById_saveAlertById st _ i (by exact haid)
            ⟨a, hamem, haid⟩]
          rfl
      · rw [if_neg hres]
        simp only
        rw [findAlertById_saveAlertById st _ i (by exact haid)
          ⟨a, hamem, haid⟩]
        rfl
  · intro hmem
    simp [updateSosStatus, hrole, hmem]

/-- C1 witness: the authority of `stC1` resolving the stored active
sos alert. -/
theorem status_update_blind_overwrite_witness :
    ((("resolved" : String) ∈
        ["acknowledged", "responding", "resolved", "closed"] →
      (updateAlertStatus stC1 authUser1 1 "resolved" 5).1 =
        HttpResult.ok ∧
      ((findAlertById (updateAlertStatus stC1 authUser1 1 "resolved" 5).2
        1).map Alert.status) = some "resolved") ∧
    (("resolved" : String) ∉
        ["acknowledged", "responding", "resolved", "closed"] →
      updateAlertStatus stC1 authUser1 1 "resolved" 5 =
        (.badRequest "Invalid status", stC1)) ∧
    (sosAlert1.type = "sos" →
      ("resolved" : String) ∈ ["acknowledged", "responding", "resolved"] →
      (updateSosStatus stC1 authUser1 1 "resolved" none 5).1 =
        HttpResult.ok ∧
      ((findAlertById (updateSosStatus stC1 authUser1 1 "resolved" none
        5).2 1).map Alert.status) = some "resolved") ∧
    (("resolved" : String) ∉ ["acknowledged", "responding", "resolved"] →
      updateSosStatus stC1 authUser1 1 "resolved" none 5 =
        (.badRequest "Invalid status", stC1))) :=
  status_update_blind_overwrite stC1 authUser1 1 "resolved" sosAlert1
    authority1 none 5 rfl (by decide) (by decide)

/-- C7: creating an SOS alert sets the subject tourist status to
emergency; resolving a stored sos alert through the SOS status route
sets the subject tourist status back to active; the SOS status route
does not find non sos alerts and so changes nothing for them, and the
generic alert status routes never touch tourists at all. -/
theorem sos_agent_status_lifecycle (st : ServerState) (user : AuthUser)
    (lat lng : Option ℚ) (message severity : Option String) (now : ℤ)
    (newId : Nat) (t : Tourist) (i tid : Nat) (a : Alert)
    (auth : Authority) (t2 : Tourist) (notes : Option String)
    (hlat : jsTruthyNum lat = true) (hlng : jsTruthyNum lng = true)
    (ht : findTouristByUserId st user.userId = some t)
    (htid0 : findTouristById st t.id = some t)
    (hrole : user.userType = "authority")
    (ha : findAlertById st i = some a)
    (hauth : findAuthorityByUserId st user.userId = some auth)
    (htid : a.touristId = some tid)
    (ht2 : findTouristById st tid = some t2) :
    (findTouristById (createSOS st user lat lng message severity now
        newId).2 t.id = some { t with status := "emergency" }) ∧
    (a.type = "sos" →
      findTouristById (updateSosStatus st user i "resolved" notes now).2
        tid = some { t2 with status := "active" }) ∧
    (findSosAlertById st i = none →
      updateSosStatus st user i "resolved" notes now =
        (.notFound "SOS alert not found", st)) ∧
    (∀ status2 now2,
      (updateAlertStatus st user i status2 now2).2.tourists = st.tourists ∧
      (adminUpdateAlertStatus st user i status2 now2).2.tourists =
        st.tourists) := by
  have haid : a.id = i := by simpa using List.find?_some ha
  have hamem : a ∈ st.alerts := List.mem_of_find?_eq_some ha
  refine ⟨?_, ?_, ?_, ?_⟩
  · simp only [createSOS]
    rw [if_neg (by simp [hlat, hlng])]
    simp only [ht]
    rw [findTouristById_setStatus]
    have h0 : (findTouristById st t.id).map
        (fun x => { x with status := "emergency" }) =
        some { t with status := "emergency" } := by
      rw [htid0]
      rfl
    exact h0
  · intro htype
    have ha2 : st.alerts.find? (fun x => x.id == i) = some a := ha
    have hsos : findSosAlertById st i = some a := by
      unfold findSosAlertById
      refine find?_stronger (fun x => x.id == i)
        (fun x => x.id == i && x.type == "sos") st.alerts a ha2 ?_ ?_
      · simp [haid, htype]
      · intro x hx
        simp only [Bool.and_eq_true] at hx
        exact hx.1
    simp only [updateSosStatus]
    rw [if_neg (by simp [hrole]), if_neg (by simp)]
    simp only [hsos, hauth, htid]
    rw [if_pos (by simp)]
    simp only
    rw [findTouristById_setStatus, findTouristById_saveAlertById]
    rw [ht2]
    rfl
  · intro hnone
    simp only [updateSosStatus]
    rw [if_neg (by simp [hrole]), if_neg (by simp)]
    simp only [hnone]
  · intro status2 now2
    exact ⟨updateAlertStatus_tourists st user i status2 now2,
      adminUpdateAlertStatus_tourists st user i status2 now2⟩

/-- C7 witness: the combined tourist and authority user of `stC7`
creating an SOS and resolving the stored sos alert. -/
theorem sos_agent_status_lifecycle_witness :
    (findTouristById (createSOS stC7 authUser1 (some 10) (some 20) none none
        9 41).2 tourist7.id = some { tourist7 with status := "emergency" }) ∧
    (sosAlert1.type = "sos" →
      findTouristById (updateSosStatus stC7 authUser1 1 "resolved" none
        9).2 20 = some { tourist7 with status := "active" }) ∧
    (findSosAlertById stC7 1 = none →
      updateSosStatus stC7 authUser1 1 "resolved" none 9 =
        (.notFound "SOS alert not found", stC7)) ∧
    (∀ status2 now2,
      (updateAlertStatus stC7 authUser1 1 status2 now2).2.tourists =
        stC7.tourists ∧
      (adminUpdateAlertStatus stC7 authUser1 1 status2 now2).2.tourists =
        stC7.tourists) :=
  sos_agent_status_lifecycle stC7 authUser1 (some 10) (some 20) none none 9
    41 tourist7 1 20 sosAlert1 authority1 tourist7 none (by decide)
    (by decide) (by decide) (by decide) rfl (by decide) (by decide) rfl
    (by decide)

end SafeTrip
